import Mathlib

/-!
Shallow embedding of the go-llm multi-capability dispatch client
(package gollm) together with the capability contracts it consumes
(packages generator, embedder, reranker).

Modelling conventions:
- Go interface values are Option of a capability record: none is the nil
  interface value, some v is a bound concrete value.
- A concrete generator value is a Provider record; the Go type assertions
  llm.(embedder.Embedder) and llm.(reranker.Reranker) succeed exactly when
  the asEmbedder / asReranker field is some.
- Go errors are their message strings (fmt.Errorf produces an error whose
  message is the format result); (resp, nil) and (nil, err) pairs become
  the CallResult inductive, which also has a constructor for runtime
  panics (out-of-range indexing in the debug-log statements).
- Each entry point additionally reports how many calls it made into the
  bound implementation, so that "no external call is made" is a statement
  about the result.
- time.Duration is Int (nanoseconds); 30 * time.Second is 30 * 1000000000.
- Streams (a receive-only channel of responses) are the finite list of
  items the channel yields; contexts carry only the per-call deadline in
  this code and the deadline itself is not observable in the results, so
  contexts are not threaded through the pure model.
- float64 request/response fields are carried inertly (no claim depends on
  floating-point arithmetic), as an integer carrier.
- The zerolog.Logger field is an observability sink with no effect on any
  result and is not modelled; the debug flag that guards the logging
  statements is.
-/

namespace GoLLM

/-- Inert carrier for Go float64 fields; no claim depends on float arithmetic. -/
abbrev Float64 := Int

/-- Carrier for Go map[string]interface objects (ProviderParams); values are
carried opaquely as strings since no code in this package reads them. -/
abbrev ParamMap := List (String × String)

/-- generator.Role is a string type. -/
abbrev Role := String

/-- generator.USER constant. -/
def USER : Role := "user"

/-- generator.ASSISTANT constant. -/
def ASSISTANT : Role := "assistant"

/-- generator.Message -/
structure Message where
  role : Role
  content : String
deriving DecidableEq

/-- generator.TokenUsage -/
structure TokenUsage where
  promptTokens : Int
  completionTokens : Int
  totalTokens : Int
deriving DecidableEq

/-- generator.Request -/
structure Request where
  model : String
  messages : List Message
  maxTokens : Int
  temperature : Float64
  topP : Float64
  stop : List String
  user : String
  providerParams : ParamMap
deriving DecidableEq

/-- generator.Response -/
structure Response where
  id : String
  object : String
  created : Int
  model : String
  content : String
  usage : TokenUsage
deriving DecidableEq

/-- embedder.TokenUsage -/
structure EmbedTokenUsage where
  promptTokens : Int
  totalTokens : Int
deriving DecidableEq

/-- embedder.EmbedData -/
structure EmbedData where
  object : String
  embedding : List Float64
  index : Int
deriving DecidableEq

/-- embedder.Request -/
structure EmbedRequest where
  model : String
  input : List String
  dimensions : Int
  user : String
  providerParams : ParamMap
deriving DecidableEq

/-- embedder.Response -/
structure EmbedResponse where
  object : String
  model : String
  data : List EmbedData
  usage : EmbedTokenUsage
deriving DecidableEq

/-- reranker.Document -/
structure Document where
  id : String
  text : String
deriving DecidableEq

/-- reranker.TokenUsage -/
structure RerankTokenUsage where
  promptTokens : Int
  totalTokens : Int
deriving DecidableEq

/-- reranker.Result -/
structure RerankResult where
  document : Document
  index : Int
  relevanceScore : Float64
deriving DecidableEq

/-- reranker.Request -/
structure RerankRequest where
  model : String
  query : String
  documents : List Document
  topN : Int
  returnDocuments : Bool
  user : String
  providerParams : ParamMap
deriving DecidableEq

/-- reranker.Response -/
structure RerankResponse where
  object : String
  model : String
  results : List RerankResult
  usage : RerankTokenUsage
deriving DecidableEq

/-- A concrete value satisfying the embedder.Embedder contract: Embed plus a
name accessor. Errors are message strings. -/
structure EmbedderImpl where
  embed : EmbedRequest → Except String EmbedResponse
  getEmbedderName : String

/-- A concrete value satisfying the reranker.Reranker contract. -/
structure RerankerImpl where
  rerank : RerankRequest → Except String RerankResponse
  getRerankerName : String

/-- A concrete provider value satisfying the generator.Generator contract,
possibly also satisfying the Embedder and Reranker contracts: the Go type
assertion llm.(embedder.Embedder) succeeds exactly when asEmbedder is some,
and llm.(reranker.Reranker) exactly when asReranker is some. The stream
returned by GenerateStream is modelled as the finite list of items the
channel yields before it closes. -/
structure Provider where
  generate : Request → Except String Response
  generateStream : Request → Except String (List Response)
  getName : String
  asEmbedder : Option EmbedderImpl
  asReranker : Option RerankerImpl

/-- gollm.Client. The llm, embedder and reranker fields are Go interface
values, hence Option; fallback slices hold interface values as well. The
timeout is a time.Duration in nanoseconds. The logger field is not modelled
(pure observability sink); the debug flag guarding the log statements is. -/
structure Client where
  llm : Option Provider
  embedder : Option EmbedderImpl
  reranker : Option RerankerImpl
  retryCount : Int
  fallbackGenerator : List (Option Provider)
  fallbackEmbedder : List (Option EmbedderImpl)
  fallbackReranker : List (Option RerankerImpl)
  timeout : Int
  debug : Bool

/-- gollm.Option values. The Go type is a function on the client, but every
option the package exports writes exactly one configuration field; fields of
Client are unexported so no code outside the package can produce an option
touching other fields. The embedder and reranker arguments are interface
values (Option), since a caller may pass nil. -/
inductive ClientOption where
  | withEmbedder (emb : Option EmbedderImpl)
  | withReranker (rer : Option RerankerImpl)
  | withRetryCount (count : Int)
  | withFallbackGenerators (generators : List (Option Provider))
  | withFallbackEmbedders (embedders : List (Option EmbedderImpl))
  | withFallbackRerankers (rerankers : List (Option RerankerImpl))
  | withTimeout (timeout : Int)
  | withDebug (debug : Bool)

/-- Action of one option on the client, exactly the field write each With*
constructor performs in the source. -/
def applyOption (c : Client) : ClientOption → Client
  | .withEmbedder emb => { c with embedder := emb }
  | .withReranker rer => { c with reranker := rer }
  | .withRetryCount count => { c with retryCount := count }
  | .withFallbackGenerators generators => { c with fallbackGenerator := generators }
  | .withFallbackEmbedders embedders => { c with fallbackEmbedder := embedders }
  | .withFallbackRerankers rerankers => { c with fallbackReranker := rerankers }
  | .withTimeout timeout => { c with timeout := timeout }
  | .withDebug debug => { c with debug := debug }

/-- Result of running NewClient: either the constructed client or a Go panic
(the nil-generator guard). -/
inductive ConstructResult where
  | ok (c : Client)
  | panicked (msg : String)

/-- The client state NewClient builds before applying options: the struct
literal (retryCount 3, timeout 30s, debug false, zero-value nil/empty for
the rest) followed by the capability auto-detection block, which assigns
client.embedder / client.reranker exactly when the type assertion on the
primary succeeds — i.e. embedder gets l.asEmbedder and reranker gets
l.asReranker (both start as nil). -/
def initialClient (l : Provider) : Client :=
  { llm := some l
    embedder := l.asEmbedder
    reranker := l.asReranker
    retryCount := 3
    fallbackGenerator := []
    fallbackEmbedder := []
    fallbackReranker := []
    timeout := 30 * 1000000000
    debug := false }

/-- gollm.NewClient: panics when the mandatory generator is nil, otherwise
builds the initial client (defaults plus capability auto-detection) and
applies the options in order. -/
def NewClient (llm : Option Provider) (opts : List ClientOption) : ConstructResult :=
  match llm with
  | none => .panicked "llm cannot be nil"
  | some l => .ok (opts.foldl applyOption (initialClient l))

/-- Outcome of an entry-point call: the (resp, nil) success pair, the
(nil, err) error pair, or a runtime panic raised before any return. -/
inductive CallResult (α : Type) where
  | ok (resp : α)
  | err (e : String)
  | panicked (msg : String)
deriving DecidableEq

/-- Delegation step shared by the entry points: invoke the bound
implementation once and translate its (resp, err) pair; the second component
counts external calls made. -/
def liftCall {α : Type} (r : Except String α) : CallResult α × Nat :=
  match r with
  | .ok resp => (.ok resp, 1)
  | .error e => (.err e, 1)

/-- Message of the Go runtime panic raised by indexing an empty slice. -/
def oobPanicMsg : String := "runtime error: index out of range"

/-- Body of Client.Generate after the nil check: the debug log statement
indexes request.Messages[0] (a runtime panic when Messages is empty), then
the call is delegated to the bound generator under the deadline-scoped
context. The TODO fallback loop is absent in the source: on error the
primary error is returned at once. -/
def Client.generateBound (c : Client) (p : Provider) (request : Request) :
    CallResult Response × Nat :=
  if c.debug && request.messages.isEmpty then
    (.panicked oobPanicMsg, 0)
  else
    liftCall (p.generate request)

/-- gollm Client.Generate: capability check, debug log, deadline-scoped
delegation. -/
def Client.Generate (c : Client) (request : Request) : CallResult Response × Nat :=
  match c.llm with
  | none => (.err "generator capability not available", 0)
  | some p => c.generateBound p request

/-- Body of Client.GenerateStream after the nil check; the debug log also
indexes request.Messages[0]. -/
def Client.generateStreamBound (c : Client) (p : Provider) (request : Request) :
    CallResult (List Response) × Nat :=
  if c.debug && request.messages.isEmpty then
    (.panicked oobPanicMsg, 0)
  else
    liftCall (p.generateStream request)

/-- gollm Client.GenerateStream. -/
def Client.GenerateStream (c : Client) (request : Request) :
    CallResult (List Response) × Nat :=
  match c.llm with
  | none => (.err "generator capability not available", 0)
  | some p => c.generateStreamBound p request

/-- Body of Client.Embed after the nil check: the debug log statement indexes
request.Input[0]. -/
def Client.embedBound (c : Client) (emb : EmbedderImpl) (request : EmbedRequest) :
    CallResult EmbedResponse × Nat :=
  if c.debug && request.input.isEmpty then
    (.panicked oobPanicMsg, 0)
  else
    liftCall (emb.embed request)

/-- gollm Client.Embed. -/
def Client.Embed (c : Client) (request : EmbedRequest) :
    CallResult EmbedResponse × Nat :=
  match c.embedder with
  | none => (.err "embedder capability not available", 0)
  | some emb => c.embedBound emb request

/-- Body of Client.Rerank after the nil check: its debug log prints a
constant string, so there is no indexing hazard. -/
def Client.rerankBound (c : Client) (rer : RerankerImpl) (request : RerankRequest) :
    CallResult RerankResponse × Nat :=
  liftCall (rer.rerank request)

/-- gollm Client.Rerank. -/
def Client.Rerank (c : Client) (request : RerankRequest) :
    CallResult RerankResponse × Nat :=
  match c.reranker with
  | none => (.err "reranker capability not available", 0)
  | some rer => c.rerankBound rer request

/-- gollm Client.HasGenerator. -/
def Client.HasGenerator (c : Client) : Bool := c.llm.isSome

/-- gollm Client.HasEmbedder. -/
def Client.HasEmbedder (c : Client) : Bool := c.embedder.isSome

/-- gollm Client.HasReranker. -/
def Client.HasReranker (c : Client) : Bool := c.reranker.isSome

/-- gollm Client.RetryCount. -/
def Client.RetryCount (c : Client) : Int := c.retryCount

/-- gollm Client.FallbackGenerators. -/
def Client.FallbackGenerators (c : Client) : List (Option Provider) :=
  c.fallbackGenerator

/-- gollm Client.FallbackEmbedders. -/
def Client.FallbackEmbedders (c : Client) : List (Option EmbedderImpl) :=
  c.fallbackEmbedder

/-- gollm Client.FallbackRerankers. -/
def Client.FallbackRerankers (c : Client) : List (Option RerankerImpl) :=
  c.fallbackReranker

/-- gollm Client.Timeout (a time.Duration in nanoseconds). -/
def Client.Timeout (c : Client) : Int := c.timeout

/-- gollm Client.Debug. -/
def Client.Debug (c : Client) : Bool := c.debug

/-- Projection used in concrete statements about constructions known not to
panic; the fallback value is never reached for a non-nil primary. -/
def ConstructResult.getClient (r : ConstructResult) : Client :=
  match r with
  | .ok c => c
  | .panicked _ =>
    { llm := none, embedder := none, reranker := none, retryCount := 0,
      fallbackGenerator := [], fallbackEmbedder := [], fallbackReranker := [],
      timeout := 0, debug := false }

/-! Helper lemmas about option application. -/

/-- No exported option writes the llm field. -/
lemma applyOption_llm (c : Client) (o : ClientOption) :
    (applyOption c o).llm = c.llm := by
  cases o <;> rfl

/-- Folding any option list leaves the llm field unchanged. -/
lemma foldl_applyOption_llm (opts : List ClientOption) (c : Client) :
    (opts.foldl applyOption c).llm = c.llm := by
  induction opts generalizing c with
  | nil => rfl
  | cons o rest ih => rw [List.foldl_cons, ih, applyOption_llm]

/-- Folding a list with no withEmbedder option leaves the embedder field
unchanged. -/
lemma foldl_applyOption_embedder (opts : List ClientOption) (c : Client)
    (h : ∀ e, ClientOption.withEmbedder e ∉ opts) :
    (opts.foldl applyOption c).embedder = c.embedder := by
  induction opts generalizing c with
  | nil => rfl
  | cons o rest ih =>
    rw [List.foldl_cons, ih _ (fun e he => h e (List.mem_cons_of_mem _ he))]
    cases o with
    | withEmbedder e => exact absurd (List.mem_cons_self _ _) (h e)
    | withReranker r => rfl
    | withRetryCount n => rfl
    | withFallbackGenerators gs => rfl
    | withFallbackEmbedders es => rfl
    | withFallbackRerankers rs => rfl
    | withTimeout t => rfl
    | withDebug d => rfl

/-- Folding a list with no withReranker option leaves the reranker field
unchanged. -/
lemma foldl_applyOption_reranker (opts : List ClientOption) (c : Client)
    (h : ∀ r, ClientOption.withReranker r ∉ opts) :
    (opts.foldl applyOption c).reranker = c.reranker := by
  induction opts generalizing c with
  | nil => rfl
  | cons o rest ih =>
    rw [List.foldl_cons, ih _ (fun r hr => h r (List.mem_cons_of_mem _ hr))]
    cases o with
    | withEmbedder e => rfl
    | withReranker r => exact absurd (List.mem_cons_self _ _) (h r)
    | withRetryCount n => rfl
    | withFallbackGenerators gs => rfl
    | withFallbackEmbedders es => rfl
    | withFallbackRerankers rs => rfl
    | withTimeout t => rfl
    | withDebug d => rfl

/-- Folding a list with no withTimeout option leaves the timeout field
unchanged. -/
lemma foldl_applyOption_timeout (opts : List ClientOption) (c : Client)
    (h : ∀ t, ClientOption.withTimeout t ∉ opts) :
    (opts.foldl applyOption c).timeout = c.timeout := by
  induction opts generalizing c with
  | nil => rfl
  | cons o rest ih =>
    rw [List.foldl_cons, ih _ (fun t ht => h t (List.mem_cons_of_mem _ ht))]
    cases o with
    | withEmbedder e => rfl
    | withReranker r => rfl
    | withRetryCount n => rfl
    | withFallbackGenerators gs => rfl
    | withFallbackEmbedders es => rfl
    | withFallbackRerankers rs => rfl
    | withTimeout t => exact absurd (List.mem_cons_self _ _) (h t)
    | withDebug d => rfl

/-! Concrete fixtures used by counterexamples and witnesses. -/

/-- A fixed successful generation response. -/
def okResponse : Response :=
  { id := "id-1", object := "chat.completion", created := 0, model := "m",
    content := "hello", usage := { promptTokens := 1, completionTokens := 1, totalTokens := 2 } }

/-- A provider whose Generate and GenerateStream always fail. -/
def failingProvider : Provider :=
  { generate := fun _ => .error "primary down"
    generateStream := fun _ => .error "primary down"
    getName := "failing"
    asEmbedder := none
    asReranker := none }

/-- A provider whose Generate and GenerateStream always succeed. -/
def okProvider : Provider :=
  { generate := fun _ => .ok okResponse
    generateStream := fun _ => .ok [okResponse]
    getName := "ok"
    asEmbedder := none
    asReranker := none }

/-- A fixed embedding response. -/
def okEmbedResponse : EmbedResponse :=
  { object := "list", model := "m", data := [], usage := { promptTokens := 1, totalTokens := 1 } }

/-- A fixed rerank response. -/
def okRerankResponse : RerankResponse :=
  { object := "rerank", model := "m", results := [], usage := { promptTokens := 1, totalTokens := 1 } }

/-- An embedder implementation that always succeeds. -/
def okEmbedder : EmbedderImpl :=
  { embed := fun _ => .ok okEmbedResponse, getEmbedderName := "emb-ok" }

/-- An embedder implementation that always fails. -/
def failingEmbedder : EmbedderImpl :=
  { embed := fun _ => .error "embed down", getEmbedderName := "emb-fail" }

/-- A reranker implementation that always succeeds. -/
def okReranker : RerankerImpl :=
  { rerank := fun _ => .ok okRerankResponse, getRerankerName := "rer-ok" }

/-- A reranker implementation that always fails. -/
def failingReranker : RerankerImpl :=
  { rerank := fun _ => .error "rerank down", getRerankerName := "rer-fail" }

/-- A provider that satisfies all three capability contracts. -/
def multiProvider : Provider :=
  { generate := fun _ => .ok okResponse
    generateStream := fun _ => .ok [okResponse]
    getName := "multi"
    asEmbedder := some okEmbedder
    asReranker := some okReranker }

/-- A one-message generation request. -/
def demoRequest : Request :=
  { model := "m", messages := [{ role := USER, content := "hi" }],
    maxTokens := 0, temperature := 0, topP := 0, stop := [], user := "",
    providerParams := [] }

/-- A generation request with an empty message list. -/
def emptyRequest : Request :=
  { model := "m", messages := [], maxTokens := 0, temperature := 0, topP := 0,
    stop := [], user := "", providerParams := [] }

/-- A one-input embedding request. -/
def demoEmbedRequest : EmbedRequest :=
  { model := "m", input := ["hi"], dimensions := 0, user := "", providerParams := [] }

/-- An embedding request with an empty input list. -/
def emptyEmbedRequest : EmbedRequest :=
  { model := "m", input := [], dimensions := 0, user := "", providerParams := [] }

/-- A rerank request. -/
def demoRerankRequest : RerankRequest :=
  { model := "m", query := "q", documents := [], topN := 0,
    returnDocuments := false, user := "", providerParams := [] }

/-! Helper lemmas about the entry-point bodies. -/

/-- The debug-log guard is false when debug is off or the list indexed by the
log statement is non-empty. -/
lemma debugGuard_false {α : Type} (b : Bool) (l : List α)
    (h : b = false ∨ l ≠ []) : (b && l.isEmpty) = false := by
  rcases h with hb | hl
  · simp [hb]
  · cases l with
    | nil => exact absurd rfl hl
    | cons a t => simp

/-- When the generator fails and the debug log does not panic, the bound path
returns exactly the generator error after one call. -/
lemma generateBound_error (c : Client) (p : Provider) (req : Request) (e : String)
    (herr : p.generate req = .error e) (hdeb : c.debug = false ∨ req.messages ≠ []) :
    c.generateBound p req = (.err e, 1) := by
  have hcond := debugGuard_false c.debug req.messages hdeb
  simp [Client.generateBound, hcond, herr, liftCall]

/-- Stream analogue of the previous lemma. -/
lemma generateStreamBound_error (c : Client) (p : Provider) (req : Request) (e : String)
    (herr : p.generateStream req = .error e) (hdeb : c.debug = false ∨ req.messages ≠ []) :
    c.generateStreamBound p req = (.err e, 1) := by
  have hcond := debugGuard_false c.debug req.messages hdeb
  simp [Client.generateStreamBound, hcond, herr, liftCall]

/-- Embed analogue of the previous lemma. -/
lemma embedBound_error (c : Client) (emb : EmbedderImpl) (req : EmbedRequest) (e : String)
    (herr : emb.embed req = .error e) (hdeb : c.debug = false ∨ req.input ≠ []) :
    c.embedBound emb req = (.err e, 1) := by
  have hcond := debugGuard_false c.debug req.input hdeb
  simp [Client.embedBound, hcond, herr, liftCall]

/-- Rerank analogue; its debug log has no indexing hazard. -/
lemma rerankBound_error (c : Client) (rer : RerankerImpl) (req : RerankRequest) (e : String)
    (herr : rer.rerank req = .error e) :
    c.rerankBound rer req = (.err e, 1) := by
  simp [Client.rerankBound, herr, liftCall]

/-- The bound generator path can never produce the capability-unavailable
pair: its error results always report one external call. -/
lemma generateBound_ne_unavailable (c : Client) (p : Provider) (req : Request) :
    c.generateBound p req ≠ (.err "generator capability not available", 0) := by
  unfold Client.generateBound
  split
  · simp
  · cases hr : p.generate req <;> simp [liftCall, hr]

/-! Claim theorems. -/

/-- Claim C2: a client constructed with no withEmbedder option from a primary
that does not satisfy the Embedder contract reports HasEmbedder false, and
Embed returns the capability-unavailable error with zero external calls;
symmetrically for Rerank when no reranker is bound. -/
theorem unbound_capability_error :
    ∀ (p : Provider) (opts : List ClientOption) (c : Client),
      NewClient (some p) opts = .ok c →
      ((p.asEmbedder = none → (∀ e, ClientOption.withEmbedder e ∉ opts) →
        c.HasEmbedder = false ∧
        ∀ req, c.Embed req = (.err "embedder capability not available", 0)) ∧
       (p.asReranker = none → (∀ r, ClientOption.withReranker r ∉ opts) →
        c.HasReranker = false ∧
        ∀ req, c.Rerank req = (.err "reranker capability not available", 0))) := by
  intro p opts c h
  simp only [NewClient] at h
  cases h
  constructor
  · intro hnone hno
    have hemb : (opts.foldl applyOption (initialClient p)).embedder = none := by
      rw [foldl_applyOption_embedder opts _ hno]
      exact hnone
    constructor
    · simp [Client.HasEmbedder, hemb]
    · intro req
      unfold Client.Embed
      rw [hemb]
  · intro hnone hno
    have hrer : (opts.foldl applyOption (initialClient p)).reranker = none := by
      rw [foldl_applyOption_reranker opts _ hno]
      exact hnone
    constructor
    · simp [Client.HasReranker, hrer]
    · intro req
      unfold Client.Rerank
      rw [hrer]

/-- Witness for C2 at a concrete provider without embedder or reranker
capability. -/
theorem unbound_capability_error_witness :
    ((NewClient (some okProvider) []).getClient).HasEmbedder = false ∧
    ((NewClient (some okProvider) []).getClient).Embed demoEmbedRequest =
      (.err "embedder capability not available", 0) ∧
    ((NewClient (some okProvider) []).getClient).HasReranker = false ∧
    ((NewClient (some okProvider) []).getClient).Rerank demoRerankRequest =
      (.err "reranker capability not available", 0) :=
  have h := unbound_capability_error okProvider [] _ rfl
  have he := h.1 rfl (fun e he => nomatch he)
  have hr := h.2 rfl (fun r hr => nomatch hr)
  ⟨he.1, he.2 demoEmbedRequest, hr.1, hr.2 demoRerankRequest⟩

/-- Claim C3: a primary satisfying all three contracts is bound as embedder
and reranker as well, and all three capability accessors return true after
construction with no options. -/
theorem multi_capability_binds_all :
    ∀ (p : Provider) (e : EmbedderImpl) (r : RerankerImpl) (c : Client),
      p.asEmbedder = some e → p.asReranker = some r →
      NewClient (some p) [] = .ok c →
      c.llm = some p ∧ c.embedder = some e ∧ c.reranker = some r ∧
      c.HasGenerator = true ∧ c.HasEmbedder = true ∧ c.HasReranker = true := by
  intro p e r c he hr h
  simp only [NewClient] at h
  cases h
  refine ⟨rfl, he, hr, rfl, ?_, ?_⟩
  · show p.asEmbedder.isSome = true
    rw [he]
    rfl
  · show p.asReranker.isSome = true
    rw [hr]
    rfl

/-- Witness for C3 at a concrete three-capability provider. -/
theorem multi_capability_binds_all_witness :
    ((NewClient (some multiProvider) []).getClient).HasGenerator = true ∧
    ((NewClient (some multiProvider) []).getClient).HasEmbedder = true ∧
    ((NewClient (some multiProvider) []).getClient).HasReranker = true :=
  have h := multi_capability_binds_all multiProvider okEmbedder okReranker _ rfl rfl rfl
  ⟨h.2.2.2.1, h.2.2.2.2.1, h.2.2.2.2.2⟩

/-- Claim C4: construction with a nil primary generator panics with the
message of the nil guard, for every combination of options, instead of
returning a recoverable value. -/
theorem nil_generator_construction_panics (opts : List ClientOption) :
    NewClient none opts = .panicked "llm cannot be nil" := rfl

/-- Claim C6: an explicit embedder (or reranker) option overrides the
auto-detected binding, for every primary, including those that satisfy the
corresponding contract themselves. -/
theorem explicit_option_overrides_autodetect :
    (∀ (p : Provider) (e : EmbedderImpl) (c : Client),
      NewClient (some p) [ClientOption.withEmbedder (some e)] = .ok c →
      c.embedder = some e ∧ c.HasEmbedder = true) ∧
    (∀ (p : Provider) (r : RerankerImpl) (c : Client),
      NewClient (some p) [ClientOption.withReranker (some r)] = .ok c →
      c.reranker = some r ∧ c.HasReranker = true) := by
  constructor
  · intro p e c h
    simp only [NewClient] at h
    cases h
    exact ⟨rfl, rfl⟩
  · intro p r c h
    simp only [NewClient] at h
    cases h
    exact ⟨rfl, rfl⟩

/-- Witness for C6: a primary that itself satisfies both optional contracts,
overridden by explicitly supplied implementations. -/
theorem explicit_option_overrides_autodetect_witness :
    ((NewClient (some multiProvider) [ClientOption.withEmbedder (some failingEmbedder)]).getClient).embedder
      = some failingEmbedder ∧
    ((NewClient (some multiProvider) [ClientOption.withReranker (some failingReranker)]).getClient).reranker
      = some failingReranker :=
  ⟨(explicit_option_overrides_autodetect.1 multiProvider failingEmbedder _ rfl).1,
   (explicit_option_overrides_autodetect.2 multiProvider failingReranker _ rfl).1⟩

/-- Claim C7: the withTimeout option round-trips through the Timeout
accessor, and without a timeout option the default is 30 seconds
(30 * 1000000000 nanoseconds). -/
theorem timeout_option_roundtrip :
    (∀ (p : Provider) (d : Int) (c : Client),
      NewClient (some p) [ClientOption.withTimeout d] = .ok c →
      c.Timeout = d) ∧
    (∀ (p : Provider) (opts : List ClientOption) (c : Client),
      (∀ d, ClientOption.withTimeout d ∉ opts) →
      NewClient (some p) opts = .ok c →
      c.Timeout = 30 * 1000000000) := by
  constructor
  · intro p d c h
    simp only [NewClient] at h
    cases h
    rfl
  · intro p opts c hno h
    simp only [NewClient] at h
    cases h
    show (opts.foldl applyOption (initialClient p)).timeout = 30 * 1000000000
    rw [foldl_applyOption_timeout opts _ hno]
    rfl

/-- Witness for C7 at a concrete 10s option and at the default. -/
theorem timeout_option_roundtrip_witness :
    ((NewClient (some okProvider) [ClientOption.withTimeout (10 * 1000000000)]).getClient).Timeout
      = 10 * 1000000000 ∧
    ((NewClient (some okProvider) []).getClient).Timeout = 30 * 1000000000 :=
  ⟨timeout_option_roundtrip.1 okProvider (10 * 1000000000) _ rfl,
   timeout_option_roundtrip.2 okProvider [] _ (fun d hd => nomatch hd) rfl⟩

/-- Claim C8: the withFallbackGenerators option round-trips through the
FallbackGenerators accessor, preserving length, order and the elements
themselves; in particular a singleton list round-trips to itself. -/
theorem fallback_generators_roundtrip :
    ∀ (p : Provider) (gs : List (Option Provider)) (c : Client),
      NewClient (some p) [ClientOption.withFallbackGenerators gs] = .ok c →
      c.FallbackGenerators = gs ∧
      c.FallbackGenerators.length = gs.length ∧
      ∀ g2, gs = [g2] → c.FallbackGenerators = [g2] := by
  intro p gs c h
  simp only [NewClient] at h
  cases h
  refine ⟨rfl, rfl, ?_⟩
  intro g2 hg
  subst hg
  rfl

/-- Witness for C8 at a concrete singleton fallback list. -/
theorem fallback_generators_roundtrip_witness :
    ((NewClient (some okProvider)
        [ClientOption.withFallbackGenerators [some failingProvider]]).getClient).FallbackGenerators
      = [some failingProvider] :=
  (fallback_generators_roundtrip okProvider [some failingProvider] _ rfl).1

/-- Client with a failing primary and a succeeding fallback generator, used
to settle C1. -/
def c1client : Client :=
  (NewClient (some failingProvider)
    [ClientOption.withFallbackGenerators [some okProvider]]).getClient

/-- Claim C1 counterexample: a client whose primary generator fails and whose
fallback list holds a generator that would succeed still returns the primary
error after exactly one external call, instead of iterating the fallback
list and returning the first success. -/
theorem fallback_claim_counterexample :
    c1client.llm = some failingProvider ∧
    c1client.FallbackGenerators = [some okProvider] ∧
    failingProvider.generate demoRequest = Except.error "primary down" ∧
    okProvider.generate demoRequest = Except.ok okResponse ∧
    c1client.Generate demoRequest = (.err "primary down", 1) ∧
    (c1client.Generate demoRequest).1 ≠ .ok okResponse :=
  ⟨rfl, rfl, rfl, rfl, rfl, by decide⟩

/-- Claim C1 (amended): on failure of the bound primary implementation, each
entry point returns that error to the caller at once, after exactly one
external call; the stored fallback lists are never consulted, the fallback
loop being an unimplemented TODO in the source. -/
theorem error_returned_without_fallback :
    (∀ (c : Client) (p : Provider) (req : Request) (e : String),
      c.llm = some p → p.generate req = .error e →
      (c.debug = false ∨ req.messages ≠ []) →
      c.Generate req = (.err e, 1)) ∧
    (∀ (c : Client) (p : Provider) (req : Request) (e : String),
      c.llm = some p → p.generateStream req = .error e →
      (c.debug = false ∨ req.messages ≠ []) →
      c.GenerateStream req = (.err e, 1)) ∧
    (∀ (c : Client) (emb : EmbedderImpl) (req : EmbedRequest) (e : String),
      c.embedder = some emb → emb.embed req = .error e →
      (c.debug = false ∨ req.input ≠ []) →
      c.Embed req = (.err e, 1)) ∧
    (∀ (c : Client) (rer : RerankerImpl) (req : RerankRequest) (e : String),
      c.reranker = some rer → rer.rerank req = .error e →
      c.Rerank req = (.err e, 1)) := by
  refine ⟨?_, ?_, ?_, ?_⟩
  · intro c p req e hllm herr hdeb
    unfold Client.Generate
    rw [hllm]
    exact generateBound_error c p req e herr hdeb
  · intro c p req e hllm herr hdeb
    unfold Client.GenerateStream
    rw [hllm]
    exact generateStreamBound_error c p req e herr hdeb
  · intro c emb req e hemb herr hdeb
    unfold Client.Embed
    rw [hemb]
    exact embedBound_error c emb req e herr hdeb
  · intro c rer req e hrer herr
    unfold Client.Rerank
    rw [hrer]
    exact rerankBound_error c rer req e herr

/-- Witness for the amended C1 at the same concrete client as the
counterexample: the fallback list is non-empty, yet one call is made and the
primary error comes back. -/
theorem error_returned_without_fallback_witness :
    c1client.Generate demoRequest = (.err "primary down", 1) ∧
    c1client.GenerateStream demoRequest = (.err "primary down", 1) :=
  ⟨error_returned_without_fallback.1 c1client failingProvider demoRequest
      "primary down" rfl rfl (Or.inl rfl),
   error_returned_without_fallback.2.1 c1client failingProvider demoRequest
      "primary down" rfl rfl (Or.inl rfl)⟩

/-- Client binding failing implementations for all three capabilities, used
for C5. -/
def c5client : Client :=
  (NewClient (some failingProvider)
    [ClientOption.withEmbedder (some failingEmbedder),
     ClientOption.withReranker (some failingReranker)]).getClient

/-- Claim C5: any error a bound implementation returns is handed to the
caller unchanged by the primary path (the nil-response, identical-error
pair), never swallowed; for Generate, Embed and Rerank alike. -/
theorem collaborator_error_propagated_unchanged :
    (∀ (c : Client) (p : Provider) (req : Request) (e : String),
      c.llm = some p → p.generate req = .error e →
      (c.debug = false ∨ req.messages ≠ []) →
      c.Generate req = (.err e, 1)) ∧
    (∀ (c : Client) (emb : EmbedderImpl) (req : EmbedRequest) (e : String),
      c.embedder = some emb → emb.embed req = .error e →
      (c.debug = false ∨ req.input ≠ []) →
      c.Embed req = (.err e, 1)) ∧
    (∀ (c : Client) (rer : RerankerImpl) (req : RerankRequest) (e : String),
      c.reranker = some rer → rer.rerank req = .error e →
      c.Rerank req = (.err e, 1)) := by
  refine ⟨?_, ?_, ?_⟩
  · intro c p req e hllm herr hdeb
    unfold Client.Generate
    rw [hllm]
    exact generateBound_error c p req e herr hdeb
  · intro c emb req e hemb herr hdeb
    unfold Client.Embed
    rw [hemb]
    exact embedBound_error c emb req e herr hdeb
  · intro c rer req e hrer herr
    unfold Client.Rerank
    rw [hrer]
    exact rerankBound_error c rer req e herr

/-- Witness for C5 at concrete failing implementations of all three
capabilities. -/
theorem collaborator_error_propagated_unchanged_witness :
    c5client.Generate demoRequest = (.err "primary down", 1) ∧
    c5client.Embed demoEmbedRequest = (.err "embed down", 1) ∧
    c5client.Rerank demoRerankRequest = (.err "rerank down", 1) :=
  ⟨collaborator_error_propagated_unchanged.1 c5client failingProvider demoRequest
      "primary down" rfl rfl (Or.inl rfl),
   collaborator_error_propagated_unchanged.2.1 c5client failingEmbedder demoEmbedRequest
      "embed down" rfl rfl (Or.inl rfl),
   collaborator_error_propagated_unchanged.2.2 c5client failingReranker demoRerankRequest
      "rerank down" rfl rfl⟩

/-- Claim C9: every successfully constructed client has a generator bound:
HasGenerator is true, Generate and GenerateStream always take the bound
path, and the generator capability-unavailable result is unreachable — the
constructor rejects nil and no option writes the generator binding. -/
theorem generator_capability_always_bound :
    ∀ (llm : Option Provider) (opts : List ClientOption) (c : Client),
      NewClient llm opts = .ok c →
      c.HasGenerator = true ∧
      ∃ p, c.llm = some p ∧
        (∀ req, c.Generate req = c.generateBound p req) ∧
        (∀ req, c.GenerateStream req = c.generateStreamBound p req) ∧
        (∀ req, c.Generate req ≠ (.err "generator capability not available", 0)) := by
  intro llm opts c h
  cases llm with
  | none => exact absurd h (by simp [NewClient])
  | some l =>
    simp only [NewClient] at h
    cases h
    have hllm : (opts.foldl applyOption (initialClient l)).llm = some l :=
      foldl_applyOption_llm opts (initialClient l)
    refine ⟨?_, l, hllm, ?_, ?_, ?_⟩
    · simp [Client.HasGenerator, hllm]
    · intro req
      unfold Client.Generate
      rw [hllm]
    · intro req
      unfold Client.GenerateStream
      rw [hllm]
    · intro req
      have hgen : (opts.foldl applyOption (initialClient l)).Generate req =
          (opts.foldl applyOption (initialClient l)).generateBound l req := by
        unfold Client.Generate
        rw [hllm]
      rw [hgen]
      exact generateBound_ne_unavailable _ l req

/-- Witness for C9 at a concrete construction. -/
theorem generator_capability_always_bound_witness :
    ((NewClient (some okProvider) [ClientOption.withDebug true]).getClient).HasGenerator = true :=
  (generator_capability_always_bound (some okProvider) [ClientOption.withDebug true]
      _ rfl).1

/-- Clients used for the C10 witness: one with debug enabled, one with the
default debug setting. -/
def c10debugClient : Client :=
  (NewClient (some multiProvider) [ClientOption.withDebug true]).getClient

/-- Default-debug companion client for the C10 witness. -/
def c10plainClient : Client :=
  (NewClient (some multiProvider) []).getClient

/-- Claim C10: with debug enabled, Generate and GenerateStream index
Messages[0] and Embed indexes Input[0] without a length guard, so an empty
list makes the call panic before any external call; a non-empty list avoids
the panic; with debug disabled no indexing occurs and every request — the
empty-list ones included — is passed through to the bound implementation. -/
theorem debug_indexing_requires_nonempty :
    (∀ (c : Client) (p : Provider) (req : Request),
      c.llm = some p → c.debug = true → req.messages = [] →
      c.Generate req = (.panicked oobPanicMsg, 0) ∧
      c.GenerateStream req = (.panicked oobPanicMsg, 0)) ∧
    (∀ (c : Client) (emb : EmbedderImpl) (req : EmbedRequest),
      c.embedder = some emb → c.debug = true → req.input = [] →
      c.Embed req = (.panicked oobPanicMsg, 0)) ∧
    (∀ (c : Client) (p : Provider) (req : Request),
      c.llm = some p → c.debug = true → req.messages ≠ [] →
      c.Generate req = liftCall (p.generate req)) ∧
    (∀ (c : Client) (p : Provider) (req : Request),
      c.llm = some p → c.debug = false →
      c.Generate req = liftCall (p.generate req) ∧
      c.GenerateStream req = liftCall (p.generateStream req)) ∧
    (∀ (c : Client) (emb : EmbedderImpl) (req : EmbedRequest),
      c.embedder = some emb → c.debug = false →
      c.Embed req = liftCall (emb.embed req)) := by
  refine ⟨?_, ?_, ?_, ?_, ?_⟩
  · intro c p req hllm hdbg hmsg
    constructor
    · unfold Client.Generate
      rw [hllm]
      simp [Client.generateBound, hdbg, hmsg]
    · unfold Client.GenerateStream
      rw [hllm]
      simp [Client.generateStreamBound, hdbg, hmsg]
  · intro c emb req hemb hdbg hinp
    unfold Client.Embed
    rw [hemb]
    simp [Client.embedBound, hdbg, hinp]
  · intro c p req hllm hdbg hmsg
    have hcond := debugGuard_false c.debug req.messages (Or.inr hmsg)
    unfold Client.Generate
    rw [hllm]
    simp [Client.generateBound, hcond]
  · intro c p req hllm hdbg
    constructor
    · unfold Client.Generate
      rw [hllm]
      simp [Client.generateBound, hdbg]
    · unfold Client.GenerateStream
      rw [hllm]
      simp [Client.generateStreamBound, hdbg]
  · intro c emb req hemb hdbg
    unfold Client.Embed
    rw [hemb]
    simp [Client.embedBound, hdbg]

/-- Witness for C10: the empty-list panic with debug on, the non-empty
pass-through with debug on, and the empty-list pass-through with debug
off. -/
theorem debug_indexing_requires_nonempty_witness :
    c10debugClient.Generate emptyRequest = (.panicked oobPanicMsg, 0) ∧
    c10debugClient.Embed emptyEmbedRequest = (.panicked oobPanicMsg, 0) ∧
    c10debugClient.Generate demoRequest = liftCall (multiProvider.generate demoRequest) ∧
    c10plainClient.Generate emptyRequest = liftCall (multiProvider.generate emptyRequest) ∧
    c10plainClient.Embed emptyEmbedRequest = liftCall (okEmbedder.embed emptyEmbedRequest) :=
  ⟨(debug_indexing_requires_nonempty.1 c10debugClient multiProvider emptyRequest
      rfl rfl rfl).1,
   debug_indexing_requires_nonempty.2.1 c10debugClient okEmbedder emptyEmbedRequest
      rfl rfl rfl,
   debug_indexing_requires_nonempty.2.2.1 c10debugClient multiProvider demoRequest
      rfl rfl (by decide),
   (debug_indexing_requires_nonempty.2.2.2.1 c10plainClient multiProvider emptyRequest
      rfl rfl).1,
   debug_indexing_requires_nonempty.2.2.2.2 c10plainClient okEmbedder emptyEmbedRequest
      rfl rfl⟩

end GoLLM
